import Mathlib

/-!
Shallow embedding of `xknx/io/request_response.py` (class `RequestResponse`)
and `xknx/devices/datetime.py` (class `DateTime`).

`RequestResponse` sends a KNX/IP request and waits on an `asyncio.Event`
(`response_received_or_timeout`) until either a matching response frame is
dispatched to `response_rec_callback` or the scheduled `timeout` callback
fires.  We model the instance attributes touched by this logic as a record
`RRState`; each method body becomes a pure state transformer, and each
externally observable action (registering/unregistering the callback with the
udp client, sending, arming/cancelling the timer, setting the event, invoking
a hook, logging) is additionally recorded in an action trace so ordering
properties can be stated.
-/

namespace Xknx

/-- The `awaited_response_class` argument: the python class object of the
expected response body (e.g. `ConnectResponse`).  `isinstance` on the body is
modelled as equality of these tags. -/
inductive RespClass
  | connectResponse
  | disconnectResponse
  | connectionStateResponse
  | tunnellingAck
deriving DecidableEq, Repr

/-- `xknx.knxip.ErrorCode` values (an excerpt; `E_NO_ERROR` is the reserved
"no error" value the callback compares against). -/
inductive ErrorCode
  | E_NO_ERROR
  | E_CONNECTION_TABLE_FULL
  | E_CONNECTION_ID
  | E_HOST_PROTOCOL_TYPE
deriving DecidableEq, Repr

/-- An inbound `knxipframe` as seen by `response_rec_callback`: the class tag
of its `body` and the body's `status_code`. -/
structure Frame where
  body_cls : RespClass
  status_code : ErrorCode
deriving DecidableEq, Repr

/-- The two `self.xknx.logger.warning` messages of the class. -/
inductive LogEntry
  | cantUnderstandKnxipframe
  | readingGroupAddressFailed (status : ErrorCode)
deriving DecidableEq, Repr

/-- Observable actions performed by the methods, in execution order. -/
inductive Action
  | logWarning (e : LogEntry)
  | setEvent
  | callSuccessHook (f : Frame)
  | callErrorHook (f : Frame)
  | registerRoute
  | send
  | armTimeout
  | cancelTimeout
  | unregisterRoute
deriving DecidableEq, Repr

/-- The constructor arguments that matter for the control flow. -/
structure RRConfig where
  awaited_response_class : RespClass
  timeout_in_seconds : Nat
deriving DecidableEq, Repr

/-- The mutable state of a `RequestResponse` instance plus its surroundings:
`success` and `event_set` are the attributes `self.success` and
`self.response_received_or_timeout`; `registered` records whether the callback
handed to `udpclient.register_callback` is currently registered;
`timeout_armed` records whether the `call_later` handle is scheduled and not
cancelled; `trace` is the list of observable actions performed so far. -/
structure RRState where
  success : Bool
  event_set : Bool
  registered : Bool
  timeout_armed : Bool
  trace : List Action
deriving DecidableEq, Repr

/-- State right after `__init__`: `success = False`, event not set, nothing
registered, no timer. -/
def initState : RRState :=
  { success := false, event_set := false, registered := false,
    timeout_armed := false, trace := [] }

/-- Append one observable action to the trace. -/
def emit (s : RRState) (a : Action) : RRState :=
  { s with trace := s.trace ++ [a] }

/-- Default `on_success_hook`: `pass`. -/
def on_success_hook (_f : Frame) (s : RRState) : RRState := s

/-- Default `on_error_hook`: logs the failing `status_code`. -/
def on_error_hook (f : Frame) (s : RRState) : RRState :=
  emit s (.logWarning (.readingGroupAddressFailed f.status_code))

/-- `response_rec_callback(self, knxipframe, _)`:
if the body is not an instance of `awaited_response_class`, log
"Cant understand knxipframe" and return; otherwise set
`response_received_or_timeout`, then on `E_NO_ERROR` set `success = True` and
invoke `on_success_hook`, else invoke `on_error_hook`. -/
def response_rec_callback (cfg : RRConfig) (f : Frame) (s : RRState) : RRState :=
  if ¬ f.body_cls = cfg.awaited_response_class then
    emit s (.logWarning .cantUnderstandKnxipframe)
  else
    let s1 := { emit s .setEvent with event_set := true }
    if f.status_code = ErrorCode.E_NO_ERROR then
      on_success_hook f (emit { s1 with success := true } (.callSuccessHook f))
    else
      on_error_hook f (emit s1 (.callErrorHook f))

/-- `timeout(self)`: sets `response_received_or_timeout`, nothing else. -/
def timeout (s : RRState) : RRState :=
  { emit s .setEvent with event_set := true }

/-- What the asyncio loop may deliver while `start` is suspended on
`response_received_or_timeout.wait()`: the scheduled `timeout` callback
firing, or an inbound frame being dispatched to `response_rec_callback`. -/
inductive WaitEvent
  | timeoutFires
  | frameArrives (f : Frame)
deriving DecidableEq, Repr

/-- One run's external circumstances: whether `udpclient.send` raises inside
`send_request`, the events delivered during the suspension, and whether the
caller's task is cancelled at the suspension point (`CancelledError` raised at
the `wait()`). -/
structure Env where
  sendFails : Bool
  duringWait : List WaitEvent
  cancelAtWait : Bool
deriving DecidableEq, Repr

/-- How a run of `start` hands control back to the caller. -/
inductive StartOutcome
  | returned
  | raisedSendError
  | cancelled
  | hung
deriving DecidableEq, Repr

/-- Deliver one wait-phase event to the instance. -/
def applyWaitEvent (cfg : RRConfig) (s : RRState) (e : WaitEvent) : RRState :=
  match e with
  | .timeoutFires => timeout s
  | .frameArrives f => response_rec_callback cfg f s

/-- Deliver the wait-phase events in order. -/
def processWait (cfg : RRConfig) (l : List WaitEvent) (s : RRState) : RRState :=
  l.foldl (applyWaitEvent cfg) s

/-- `callb = self.udpclient.register_callback(self.response_rec_callback,
[self.awaited_response_class.service_type])`. -/
def register_callback (s : RRState) : RRState :=
  { emit s .registerRoute with registered := true }

/-- `send_request(self)`: builds the frame, normalizes it and hands it to
`udpclient.send` (the frame construction is external; the observable effect is
the send). -/
def send_request (s : RRState) : RRState := emit s .send

/-- `start_timeout(self)`: `self.timeout_handle = loop.call_later(...)`. -/
def start_timeout (s : RRState) : RRState :=
  { emit s .armTimeout with timeout_armed := true }

/-- `stop_timeout(self)`: `self.timeout_handle.cancel()`. -/
def stop_timeout (s : RRState) : RRState :=
  { emit s .cancelTimeout with timeout_armed := false }

/-- `self.udpclient.unregister_callback(callb)`. -/
def unregister_callback (s : RRState) : RRState :=
  { emit s .unregisterRoute with registered := false }

/-- `start(self)` line by line:
`callb = udpclient.register_callback(...)`; `yield from send_request()`
(an exception there propagates with no cleanup); `yield from start_timeout()`;
`yield from response_received_or_timeout.wait()` (a cancellation raised here
propagates with no cleanup; if the event is never set the coroutine stays
suspended); `yield from stop_timeout()`; `udpclient.unregister_callback(callb)`. -/
def start (cfg : RRConfig) (env : Env) (s : RRState) : RRState × StartOutcome :=
  let s1 := register_callback s
  if env.sendFails then
    (s1, .raisedSendError)
  else
    let s4 := processWait cfg env.duringWait (start_timeout (send_request s1))
    if env.cancelAtWait then
      (s4, .cancelled)
    else if s4.event_set then
      (unregister_callback (stop_timeout s4), .returned)
    else
      (s4, .hung)

/-- The actions `response_rec_callback` appends for a given frame. -/
def frameActions (cfg : RRConfig) (f : Frame) : List Action :=
  if ¬ f.body_cls = cfg.awaited_response_class then
    [.logWarning .cantUnderstandKnxipframe]
  else if f.status_code = ErrorCode.E_NO_ERROR then
    [.setEvent, .callSuccessHook f]
  else
    [.setEvent, .callErrorHook f, .logWarning (.readingGroupAddressFailed f.status_code)]

/-- The actions one wait-phase event appends. -/
def eventActions (cfg : RRConfig) : WaitEvent → List Action
  | .timeoutFires => [.setEvent]
  | .frameArrives f => frameActions cfg f

/-- The actions a list of wait-phase events appends. -/
def waitActions (cfg : RRConfig) : List WaitEvent → List Action
  | [] => []
  | e :: rest => eventActions cfg e ++ waitActions cfg rest

/-- Does this wait-phase event set `self.success`? -/
def setsSuccess (cfg : RRConfig) : WaitEvent → Bool
  | .timeoutFires => false
  | .frameArrives f =>
      decide (f.body_cls = cfg.awaited_response_class)
        && decide (f.status_code = ErrorCode.E_NO_ERROR)

/-- Does this wait-phase event set `response_received_or_timeout`? -/
def setsEvent (cfg : RRConfig) : WaitEvent → Bool
  | .timeoutFires => true
  | .frameArrives f => decide (f.body_cls = cfg.awaited_response_class)

/-! ### Helper lemmas about the handler and the wait phase -/

theorem response_rec_callback_mismatch (cfg : RRConfig) (f : Frame) (s : RRState)
    (h : ¬ f.body_cls = cfg.awaited_response_class) :
    response_rec_callback cfg f s
      = { s with trace := s.trace ++ [Action.logWarning LogEntry.cantUnderstandKnxipframe] } := by
  simp [response_rec_callback, emit, h]

theorem response_rec_callback_noerr (cfg : RRConfig) (f : Frame) (s : RRState)
    (h1 : f.body_cls = cfg.awaited_response_class)
    (h2 : f.status_code = ErrorCode.E_NO_ERROR) :
    response_rec_callback cfg f s
      = { s with event_set := true, success := true,
                 trace := s.trace ++ [Action.setEvent, Action.callSuccessHook f] } := by
  simp [response_rec_callback, emit, on_success_hook, h1, h2]

theorem response_rec_callback_err (cfg : RRConfig) (f : Frame) (s : RRState)
    (h1 : f.body_cls = cfg.awaited_response_class)
    (h2 : ¬ f.status_code = ErrorCode.E_NO_ERROR) :
    response_rec_callback cfg f s
      = { s with event_set := true,
                 trace := s.trace ++ [Action.setEvent, Action.callErrorHook f,
                   Action.logWarning (LogEntry.readingGroupAddressFailed f.status_code)] } := by
  simp [response_rec_callback, emit, on_error_hook, h1, h2]

theorem applyWaitEvent_trace (cfg : RRConfig) (s : RRState) (e : WaitEvent) :
    (applyWaitEvent cfg s e).trace = s.trace ++ eventActions cfg e := by
  cases e with
  | timeoutFires => rfl
  | frameArrives f =>
      by_cases h1 : f.body_cls = cfg.awaited_response_class
      · by_cases h2 : f.status_code = ErrorCode.E_NO_ERROR
        · rw [applyWaitEvent, response_rec_callback_noerr cfg f s h1 h2]
          simp [eventActions, frameActions, h1, h2]
        · rw [applyWaitEvent, response_rec_callback_err cfg f s h1 h2]
          simp [eventActions, frameActions, h1, h2]
      · rw [applyWaitEvent, response_rec_callback_mismatch cfg f s h1]
        simp [eventActions, frameActions, h1]

theorem applyWaitEvent_registered (cfg : RRConfig) (s : RRState) (e : WaitEvent) :
    (applyWaitEvent cfg s e).registered = s.registered := by
  cases e with
  | timeoutFires => rfl
  | frameArrives f =>
      by_cases h1 : f.body_cls = cfg.awaited_response_class
      · by_cases h2 : f.status_code = ErrorCode.E_NO_ERROR
        · rw [applyWaitEvent, response_rec_callback_noerr cfg f s h1 h2]
        · rw [applyWaitEvent, response_rec_callback_err cfg f s h1 h2]
      · rw [applyWaitEvent, response_rec_callback_mismatch cfg f s h1]

theorem applyWaitEvent_armed (cfg : RRConfig) (s : RRState) (e : WaitEvent) :
    (applyWaitEvent cfg s e).timeout_armed = s.timeout_armed := by
  cases e with
  | timeoutFires => rfl
  | frameArrives f =>
      by_cases h1 : f.body_cls = cfg.awaited_response_class
      · by_cases h2 : f.status_code = ErrorCode.E_NO_ERROR
        · rw [applyWaitEvent, response_rec_callback_noerr cfg f s h1 h2]
        · rw [applyWaitEvent, response_rec_callback_err cfg f s h1 h2]
      · rw [applyWaitEvent, response_rec_callback_mismatch cfg f s h1]

theorem applyWaitEvent_success (cfg : RRConfig) (s : RRState) (e : WaitEvent) :
    (applyWaitEvent cfg s e).success = (s.success || setsSuccess cfg e) := by
  cases e with
  | timeoutFires => simp [applyWaitEvent, timeout, emit, setsSuccess]
  | frameArrives f =>
      by_cases h1 : f.body_cls = cfg.awaited_response_class
      · by_cases h2 : f.status_code = ErrorCode.E_NO_ERROR
        · rw [applyWaitEvent, response_rec_callback_noerr cfg f s h1 h2]
          simp [setsSuccess, h1, h2]
        · rw [applyWaitEvent, response_rec_callback_err cfg f s h1 h2]
          simp [setsSuccess, h1, h2]
      · rw [applyWaitEvent, response_rec_callback_mismatch cfg f s h1]
        simp [setsSuccess, h1]

theorem applyWaitEvent_event (cfg : RRConfig) (s : RRState) (e : WaitEvent) :
    (applyWaitEvent cfg s e).event_set = (s.event_set || setsEvent cfg e) := by
  cases e with
  | timeoutFires => simp [applyWaitEvent, timeout, emit, setsEvent]
  | frameArrives f =>
      by_cases h1 : f.body_cls = cfg.awaited_response_class
      · by_cases h2 : f.status_code = ErrorCode.E_NO_ERROR
        · rw [applyWaitEvent, response_rec_callback_noerr cfg f s h1 h2]
          simp [setsEvent, h1]
        · rw [applyWaitEvent, response_rec_callback_err cfg f s h1 h2]
          simp [setsEvent, h1]
      · rw [applyWaitEvent, response_rec_callback_mismatch cfg f s h1]
        simp [setsEvent, h1]

theorem processWait_trace (cfg : RRConfig) :
    ∀ (l : List WaitEvent) (s : RRState),
      (processWait cfg l s).trace = s.trace ++ waitActions cfg l := by
  intro l
  induction l with
  | nil => intro s; simp [processWait, waitActions]
  | cons e rest ih =>
      intro s
      have hstep : processWait cfg (e :: rest) s
          = processWait cfg rest (applyWaitEvent cfg s e) := rfl
      rw [hstep, ih, applyWaitEvent_trace, waitActions, List.append_assoc]

theorem processWait_registered (cfg : RRConfig) :
    ∀ (l : List WaitEvent) (s : RRState),
      (processWait cfg l s).registered = s.registered := by
  intro l
  induction l with
  | nil => intro s; rfl
  | cons e rest ih =>
      intro s
      have hstep : processWait cfg (e :: rest) s
          = processWait cfg rest (applyWaitEvent cfg s e) := rfl
      rw [hstep, ih, applyWaitEvent_registered]

theorem processWait_armed (cfg : RRConfig) :
    ∀ (l : List WaitEvent) (s : RRState),
      (processWait cfg l s).timeout_armed = s.timeout_armed := by
  intro l
  induction l with
  | nil => intro s; rfl
  | cons e rest ih =>
      intro s
      have hstep : processWait cfg (e :: rest) s
          = processWait cfg rest (applyWaitEvent cfg s e) := rfl
      rw [hstep, ih, applyWaitEvent_armed]

theorem processWait_success (cfg : RRConfig) :
    ∀ (l : List WaitEvent) (s : RRState),
      (processWait cfg l s).success = (s.success || l.any (setsSuccess cfg)) := by
  intro l
  induction l with
  | nil => intro s; simp [processWait]
  | cons e rest ih =>
      intro s
      have hstep : processWait cfg (e :: rest) s
          = processWait cfg rest (applyWaitEvent cfg s e) := rfl
      rw [hstep, ih, applyWaitEvent_success]
      simp [Bool.or_assoc]

theorem processWait_event (cfg : RRConfig) :
    ∀ (l : List WaitEvent) (s : RRState),
      (processWait cfg l s).event_set = (s.event_set || l.any (setsEvent cfg)) := by
  intro l
  induction l with
  | nil => intro s; simp [processWait]
  | cons e rest ih =>
      intro s
      have hstep : processWait cfg (e :: rest) s
          = processWait cfg rest (applyWaitEvent cfg s e) := rfl
      rw [hstep, ih, applyWaitEvent_event]
      simp [Bool.or_assoc]

/-- Shape of a run whose send raises. -/
theorem start_sendFails (cfg : RRConfig) (l : List WaitEvent) (c : Bool) (s : RRState) :
    start cfg ⟨true, l, c⟩ s = (register_callback s, StartOutcome.raisedSendError) := rfl

/-- Shape of a run cancelled at the suspension point. -/
theorem start_cancelled (cfg : RRConfig) (l : List WaitEvent) (s : RRState) :
    start cfg ⟨false, l, true⟩ s
      = (processWait cfg l (start_timeout (send_request (register_callback s))),
         StartOutcome.cancelled) := rfl

/-- Shape of an uncancelled run whose send succeeded. -/
theorem start_normal (cfg : RRConfig) (l : List WaitEvent) (s : RRState) :
    start cfg ⟨false, l, false⟩ s
      = (if (processWait cfg l (start_timeout (send_request (register_callback s)))).event_set
            = true
         then (unregister_callback (stop_timeout
                (processWait cfg l (start_timeout (send_request (register_callback s))))),
               StartOutcome.returned)
         else (processWait cfg l (start_timeout (send_request (register_callback s))),
               StartOutcome.hung)) := rfl

/-! ### Concrete fixtures -/

def cfg0 : RRConfig := ⟨RespClass.connectResponse, 1⟩

def okFrame : Frame := ⟨RespClass.connectResponse, ErrorCode.E_NO_ERROR⟩

def failFrame : Frame := ⟨RespClass.connectResponse, ErrorCode.E_CONNECTION_TABLE_FULL⟩

def strayFrame : Frame := ⟨RespClass.tunnellingAck, ErrorCode.E_NO_ERROR⟩

def envFailureResponse : Env := ⟨false, [WaitEvent.frameArrives failFrame], false⟩

def envTimeoutOnly : Env := ⟨false, [WaitEvent.timeoutFires], false⟩

def envSendFailure : Env := ⟨true, [], false⟩

def envCancelled : Env := ⟨false, [], true⟩

/-- What the caller can observe as the transaction's recorded result once
`start` hands back control: the way `start` resumed, and `self.success`
(`start` itself returns `None`; no response frame or status code is stored on
the instance). -/
def callerResult (cfg : RRConfig) (env : Env) (s : RRState) : StartOutcome × Bool :=
  ((start cfg env s).2, (start cfg env s).1.success)

/-! ### Claims C1 - C4 -/

/-- Claim C1, counterexample: after the `timeout` handler has completed the
transaction (event set, recorded outcome `success = false`, i.e. timed out), a
matching no-error response delivered before `start` resumes still flips
`success` to `true` and invokes the success hook — the later claimant does
change the recorded outcome, contradicting "only the first claimant wins". -/
theorem C1_counterexample :
    (timeout initState).event_set = true ∧
    (timeout initState).success = false ∧
    (response_rec_callback cfg0 okFrame (timeout initState)).success = true ∧
    Action.callSuccessHook okFrame
      ∈ (response_rec_callback cfg0 okFrame (timeout initState)).trace := by
  decide

/-- Claim C1, amended: only one direction holds — the `timeout` handler never
changes the recorded outcome and never invokes a hook (its entire effect is
setting the completion event), so a timeout firing after the response handler
completed changes nothing; but a matching response arriving after the timeout
already fired does overwrite the outcome and invoke the hooks (see the
counterexample). -/
theorem C1_first_claimant (s : RRState) :
    timeout s = { s with event_set := true, trace := s.trace ++ [Action.setEvent] } := rfl

/-- Claim C2, counterexample: a protocol failure (matching frame with status
`E_CONNECTION_TABLE_FULL`) and a pure timeout produce the identical
caller-visible result `(returned, success = false)`: the reported result is
not tri-state, and a protocol failure is not distinguishable from a timeout. -/
theorem C2_counterexample :
    callerResult cfg0 envFailureResponse initState = (StartOutcome.returned, false) ∧
    callerResult cfg0 envTimeoutOnly initState = (StartOutcome.returned, false) := by
  decide

/-- Claim C2, amended: the caller receives a single boolean, not a tri-state
result: after any run of `start` whose send succeeded, the recorded `success`
flag is true exactly when a matching no-error response was processed during
the wait; protocol failure and timeout both leave it at its initial `false`
and are not distinguishable from each other in the reported result. -/
theorem C2_success_flag (cfg : RRConfig) (env : Env) (s : RRState)
    (h : env.sendFails = false) :
    (start cfg env s).1.success = (s.success || env.duringWait.any (setsSuccess cfg)) := by
  obtain ⟨sf, l, c⟩ := env
  have hs : sf = false := h
  subst hs
  cases c with
  | false =>
      rw [start_normal]
      split
      · simp [unregister_callback, stop_timeout, emit, processWait_success,
              start_timeout, send_request, register_callback]
      · simp [processWait_success, start_timeout, send_request, register_callback, emit]
  | true =>
      rw [start_cancelled]
      simp [processWait_success, start_timeout, send_request, register_callback, emit]

/-- Claim C2, witness for the amended theorem. -/
theorem C2_witness :
    envFailureResponse.sendFails = false ∧
    (start cfg0 envFailureResponse initState).1.success
      = (initState.success || envFailureResponse.duringWait.any (setsSuccess cfg0)) :=
  ⟨rfl, C2_success_flag cfg0 envFailureResponse initState rfl⟩

/-- Claim C3, counterexample: when `udpclient.send` raises, the exception does
propagate synchronously out of `start`, but the dispatch route registered by
the first line of `start` is never unregistered — a dangling registration
remains, contradicting "no dispatch route is (or remains) registered". -/
theorem C3_counterexample :
    (start cfg0 envSendFailure initState).2 = StartOutcome.raisedSendError ∧
    (start cfg0 envSendFailure initState).1.registered = true := by
  decide

/-- Claim C3, amended: if `Transport.send` fails, the failure is surfaced
synchronously to the caller and the timeout is never armed, but the dispatch
route — registered before the send, not after it — remains registered
afterwards (the callback is only unregistered on the normal return path). -/
theorem C3_send_failure (cfg : RRConfig) (env : Env) (s : RRState)
    (h : env.sendFails = true) :
    start cfg env s
      = ({ s with registered := true, trace := s.trace ++ [Action.registerRoute] },
         StartOutcome.raisedSendError) := by
  obtain ⟨sf, l, c⟩ := env
  have hs : sf = true := h
  subst hs
  rw [start_sendFails]
  rfl

/-- Claim C3, witness for the amended theorem. -/
theorem C3_witness :
    envSendFailure.sendFails = true ∧
    start cfg0 envSendFailure initState
      = ({ initState with registered := true, trace := initState.trace ++ [Action.registerRoute] },
         StartOutcome.raisedSendError) :=
  ⟨rfl, C3_send_failure cfg0 envSendFailure initState rfl⟩

/-- Claim C4, counterexample: if the caller's task is cancelled at the
suspension point, `start` propagates the cancellation without running
`stop_timeout` or `unregister_callback` (there is no `try/finally`), so the
dispatch route stays registered and the timer stays armed — teardown is
skipped, contradicting "teardown on every exit path". -/
theorem C4_counterexample :
    (start cfg0 envCancelled initState).2 = StartOutcome.cancelled ∧
    (start cfg0 envCancelled initState).1.registered = true ∧
    (start cfg0 envCancelled initState).1.timeout_armed = true := by
  decide

/-- Claim C4, amended: teardown runs only on the normal return path — a run
that returns normally ends with the route unregistered and the timer
cancelled — while a run abandoned by cancellation at the suspension point
skips teardown entirely, leaving the route registered and the timer armed. -/
theorem C4_teardown (cfg : RRConfig) (envC envN : Env)
    (h1 : envC.sendFails = false) (h2 : envC.cancelAtWait = true)
    (h3 : envN.sendFails = false) (h4 : envN.cancelAtWait = false)
    (h5 : (start cfg envN initState).2 = StartOutcome.returned) :
    ((start cfg envC initState).2 = StartOutcome.cancelled
      ∧ (start cfg envC initState).1.registered = true
      ∧ (start cfg envC initState).1.timeout_armed = true)
    ∧ ((start cfg envN initState).1.registered = false
      ∧ (start cfg envN initState).1.timeout_armed = false) := by
  constructor
  · obtain ⟨sf, l, c⟩ := envC
    have hs : sf = false := h1
    have hc : c = true := h2
    subst hs; subst hc
    rw [start_cancelled]
    refine ⟨rfl, ?_, ?_⟩
    · simp [processWait_registered, start_timeout, send_request, register_callback, emit]
    · simp [processWait_armed, start_timeout, send_request, register_callback, emit]
  · obtain ⟨sf, l, c⟩ := envN
    have hs : sf = false := h3
    have hc : c = false := h4
    subst hs; subst hc
    by_cases he : (processWait cfg l
        (start_timeout (send_request (register_callback initState)))).event_set = true
    · rw [start_normal, if_pos he]
      exact ⟨rfl, rfl⟩
    · rw [start_normal, if_neg he] at h5
      exact absurd h5 (by simp)

/-- Claim C4, witness for the amended theorem. -/
theorem C4_witness :
    (envCancelled.sendFails = false ∧ envCancelled.cancelAtWait = true
      ∧ envTimeoutOnly.sendFails = false ∧ envTimeoutOnly.cancelAtWait = false
      ∧ (start cfg0 envTimeoutOnly initState).2 = StartOutcome.returned)
    ∧ (((start cfg0 envCancelled initState).2 = StartOutcome.cancelled
      ∧ (start cfg0 envCancelled initState).1.registered = true
      ∧ (start cfg0 envCancelled initState).1.timeout_armed = true)
    ∧ ((start cfg0 envTimeoutOnly initState).1.registered = false
      ∧ (start cfg0 envTimeoutOnly initState).1.timeout_armed = false)) :=
  ⟨⟨rfl, rfl, rfl, rfl, by decide⟩,
   C4_teardown cfg0 envCancelled envTimeoutOnly rfl rfl rfl rfl (by decide)⟩

/-! ### Claims C5 - C9 -/

/-- Claim C5: in every normal run of `start` (send succeeded, not cancelled,
returned normally), the action trace is exactly: register the dispatch route
first, then send the request, then arm the timer, then the wait-phase
actions, then cancel the timer and unregister the route last — so the route
is registered before the request frame is sent and unregistered before
`start` returns the outcome to the caller. -/
theorem C5_route_lifetime (cfg : RRConfig) (env : Env)
    (h1 : env.sendFails = false) (h2 : env.cancelAtWait = false)
    (h3 : (start cfg env initState).2 = StartOutcome.returned) :
    (start cfg env initState).1.trace
      = [Action.registerRoute, Action.send, Action.armTimeout]
        ++ waitActions cfg env.duringWait
        ++ [Action.cancelTimeout, Action.unregisterRoute] := by
  obtain ⟨sf, l, c⟩ := env
  have hs : sf = false := h1
  have hc : c = false := h2
  subst hs; subst hc
  by_cases he : (processWait cfg l
      (start_timeout (send_request (register_callback initState)))).event_set = true
  · rw [start_normal, if_pos he]
    show (processWait cfg l (start_timeout (send_request (register_callback initState)))).trace
        ++ [Action.cancelTimeout] ++ [Action.unregisterRoute] = _
    rw [processWait_trace]
    simp [start_timeout, send_request, register_callback, emit, initState]
  · rw [start_normal, if_neg he] at h3
    exact absurd h3 (by simp)

/-- Claim C5, witness. -/
theorem C5_witness :
    (envTimeoutOnly.sendFails = false ∧ envTimeoutOnly.cancelAtWait = false
      ∧ (start cfg0 envTimeoutOnly initState).2 = StartOutcome.returned)
    ∧ (start cfg0 envTimeoutOnly initState).1.trace
        = [Action.registerRoute, Action.send, Action.armTimeout]
          ++ waitActions cfg0 envTimeoutOnly.duringWait
          ++ [Action.cancelTimeout, Action.unregisterRoute] :=
  ⟨⟨rfl, rfl, by decide⟩, C5_route_lifetime cfg0 envTimeoutOnly rfl rfl (by decide)⟩

/-- Claim C6: when the handler receives a frame of the awaited response
class, status `E_NO_ERROR` makes it record success (`success = True`) and
invoke the overridable success hook with the frame; any other status leaves
`success` at its previous value — the transaction completes without success,
which is how this code records a protocol failure — and invokes the
overridable error hook, whose default body logs the failing status code. -/
theorem C6_status_dispatch (cfg : RRConfig) (s : RRState) (f g : Frame)
    (hf1 : f.body_cls = cfg.awaited_response_class)
    (hf2 : f.status_code = ErrorCode.E_NO_ERROR)
    (hg1 : g.body_cls = cfg.awaited_response_class)
    (hg2 : ¬ g.status_code = ErrorCode.E_NO_ERROR) :
    response_rec_callback cfg f s
      = { s with event_set := true, success := true,
                 trace := s.trace ++ [Action.setEvent, Action.callSuccessHook f] }
    ∧ response_rec_callback cfg g s
      = { s with event_set := true,
                 trace := s.trace ++ [Action.setEvent, Action.callErrorHook g,
                   Action.logWarning (LogEntry.readingGroupAddressFailed g.status_code)] } :=
  ⟨response_rec_callback_noerr cfg f s hf1 hf2,
   response_rec_callback_err cfg g s hg1 hg2⟩

/-- Claim C6, witness. -/
theorem C6_witness :
    (okFrame.body_cls = cfg0.awaited_response_class
      ∧ okFrame.status_code = ErrorCode.E_NO_ERROR
      ∧ failFrame.body_cls = cfg0.awaited_response_class
      ∧ ¬ failFrame.status_code = ErrorCode.E_NO_ERROR)
    ∧ (response_rec_callback cfg0 okFrame initState
        = { initState with event_set := true, success := true,
                           trace := initState.trace
                             ++ [Action.setEvent, Action.callSuccessHook okFrame] }
      ∧ response_rec_callback cfg0 failFrame initState
        = { initState with event_set := true,
                           trace := initState.trace ++ [Action.setEvent,
                             Action.callErrorHook failFrame,
                             Action.logWarning (LogEntry.readingGroupAddressFailed
                               failFrame.status_code)] }) :=
  ⟨⟨rfl, rfl, rfl, by decide⟩,
   C6_status_dispatch cfg0 initState okFrame failFrame rfl rfl rfl (by decide)⟩

/-- Claim C7: a frame whose body is not an instance of the awaited response
class only gets the "Cant understand knxipframe" warning logged: the
completion event is not set, `success` is unchanged, no hook is invoked, and
the state is otherwise untouched — the transaction keeps waiting. -/
theorem C7_mismatch_ignored (cfg : RRConfig) (s : RRState) (f : Frame)
    (h : ¬ f.body_cls = cfg.awaited_response_class) :
    response_rec_callback cfg f s
      = { s with trace := s.trace ++ [Action.logWarning LogEntry.cantUnderstandKnxipframe] } :=
  response_rec_callback_mismatch cfg f s h

/-- Claim C7, witness. -/
theorem C7_witness :
    (¬ strayFrame.body_cls = cfg0.awaited_response_class)
    ∧ response_rec_callback cfg0 strayFrame initState
      = { initState with trace := initState.trace
            ++ [Action.logWarning LogEntry.cantUnderstandKnxipframe] } :=
  ⟨by decide, C7_mismatch_ignored cfg0 initState strayFrame (by decide)⟩

/-- Claim C8: the wait always terminates — if, while `start` is suspended,
either the scheduled timeout callback fires or a frame of the awaited class
is dispatched (and the caller is not cancelled), the completion event is set
and `start` resumes and returns instead of hanging. -/
theorem C8_wait_terminates (cfg : RRConfig) (env : Env) (s : RRState)
    (h1 : env.sendFails = false) (h2 : env.cancelAtWait = false)
    (h3 : env.duringWait.any (setsEvent cfg) = true) :
    (start cfg env s).2 = StartOutcome.returned := by
  obtain ⟨sf, l, c⟩ := env
  have hs : sf = false := h1
  have hc : c = false := h2
  subst hs; subst hc
  have he : (processWait cfg l
      (start_timeout (send_request (register_callback s)))).event_set = true := by
    rw [processWait_event]
    have h3' : l.any (setsEvent cfg) = true := h3
    rw [h3']
    simp
  rw [start_normal, if_pos he]

/-- Claim C8, witness. -/
theorem C8_witness :
    (envTimeoutOnly.sendFails = false ∧ envTimeoutOnly.cancelAtWait = false
      ∧ envTimeoutOnly.duringWait.any (setsEvent cfg0) = true)
    ∧ (start cfg0 envTimeoutOnly initState).2 = StartOutcome.returned :=
  ⟨⟨rfl, rfl, by decide⟩, C8_wait_terminates cfg0 envTimeoutOnly initState rfl rfl (by decide)⟩

/-- The actions the handler performs after setting the completion event:
the hook invocation (and, on the error path, the default hook's log). -/
def hookActions (f : Frame) : List Action :=
  if f.status_code = ErrorCode.E_NO_ERROR then
    [.callSuccessHook f]
  else
    [.callErrorHook f, .logWarning (.readingGroupAddressFailed f.status_code)]

/-- Claim C9: for every frame of the awaited class, the handler's first
action is setting the completion event, and only afterwards does it invoke a
hook — so the suspended waiter is released even if an overridden success or
error hook raises, since the event is already set when the hook runs. -/
theorem C9_event_before_hooks (cfg : RRConfig) (s : RRState) (f : Frame)
    (h : f.body_cls = cfg.awaited_response_class) :
    (response_rec_callback cfg f s).event_set = true
    ∧ (response_rec_callback cfg f s).trace
        = s.trace ++ Action.setEvent :: hookActions f := by
  by_cases h2 : f.status_code = ErrorCode.E_NO_ERROR
  · rw [response_rec_callback_noerr cfg f s h h2]
    constructor
    · rfl
    · simp [hookActions, h2]
  · rw [response_rec_callback_err cfg f s h h2]
    constructor
    · rfl
    · simp [hookActions, h2]

/-- Claim C9, witness. -/
theorem C9_witness :
    failFrame.body_cls = cfg0.awaited_response_class
    ∧ ((response_rec_callback cfg0 failFrame initState).event_set = true
      ∧ (response_rec_callback cfg0 failFrame initState).trace
          = initState.trace ++ Action.setEvent :: hookActions failFrame) :=
  ⟨rfl, C9_event_before_hooks cfg0 initState failFrame rfl⟩

/-! ### `xknx/devices/datetime.py` -/

/-- `DateTimeBroadcastType`: the three broadcast kinds of the virtual
date/time device. -/
inductive DateTimeBroadcastType
  | DATETIME
  | DATE
  | TIME
deriving DecidableEq, Repr

/-- The payload handed to `DPTArray` and sent: the result of the external
DPT encoder picked in `broadcast_time` (`DPTDateTime.current_datetime_as_knx`,
`DPTDate.current_date_as_knx` or `DPTTime.current_time_as_knx`; their byte
contents are external and opaque here). -/
inductive BroadcastData
  | currentDatetimeAsKnx
  | currentDateAsKnx
  | currentTimeAsKnx
deriving DecidableEq, Repr

/-- `DateTime.broadcast_time(self)`: the `if/elif/elif` chain on
`self.broadcast_type`; the final `else` branch is `raise TypeError()`,
modelled as `Except.error ()`; reaching the send with the chosen payload is
modelled as `Except.ok`. -/
def broadcast_time (broadcast_type : DateTimeBroadcastType) : Except Unit BroadcastData :=
  if broadcast_type = DateTimeBroadcastType.DATETIME then
    .ok .currentDatetimeAsKnx
  else if broadcast_type = DateTimeBroadcastType.DATE then
    .ok .currentDateAsKnx
  else if broadcast_type = DateTimeBroadcastType.TIME then
    .ok .currentTimeAsKnx
  else
    .error ()

/-! ### Claim C10 -/

/-- Claim C10: for each of the three `DateTimeBroadcastType` values — the
only inhabitants of the enum — `broadcast_time` returns the corresponding
encoded payload and never reaches the `raise TypeError()` branch. -/
theorem C10_broadcast_time_total :
    broadcast_time DateTimeBroadcastType.DATETIME
      = Except.ok BroadcastData.currentDatetimeAsKnx
    ∧ broadcast_time DateTimeBroadcastType.DATE = Except.ok BroadcastData.currentDateAsKnx
    ∧ broadcast_time DateTimeBroadcastType.TIME = Except.ok BroadcastData.currentTimeAsKnx :=
  ⟨rfl, rfl, rfl⟩

end Xknx
